import Mathlib

/-!
Shallow embedding of the VerifyIQ URL scanner scoring core
(`scanUrl` / `computeIQScore`, URL scanner service) and of the social
authenticity classifier's verdict mapping (`calculateIntegrityScore`).

JavaScript numbers are modelled as rationals (`ℚ`); every constant that
appears in the source (0.8, 0.6, ...) is an exact decimal, and for each
concrete evaluation used below the IEEE-754 double computation of the
source yields exactly the same value as the rational computation, so the
model is float-exact on those inputs.  `Math.round` rounds half toward
positive infinity, i.e. `⌊x + 1/2⌋`.

The six network probes return loosely-typed objects; each is modelled as
a structure holding exactly the fields that `scanUrl`'s fallback
substitution (its `checks` record) and `computeIQScore` read.
`Promise.allSettled` delivers, for each probe, either a fulfilled value
or a rejection; this is the `Settled` type, and `scanUrl` is modelled as
a function of the parse result and the six settled outcomes.
-/

namespace VerifyIQ

/-- Outcome of one probe as delivered by `Promise.allSettled`:
either the probe's fulfilled value or a rejection. -/
inductive Settled (α : Type) where
  | fulfilled (value : α)
  | rejected
  deriving Repr, DecidableEq

/-- Result object of `checkDomainAge`, restricted to the fields read
downstream: `age_days`, and the `error` field used by the fallback
`\x7b error: 'Check failed', age_days: 0 \x7d`. -/
structure DomainAgeCheck where
  age_days : ℤ
  error : Option String := none
  deriving Repr, DecidableEq

/-- Result object of `checkSSL`: `valid`, the optional `days_remaining`
(absent on the invalid/fallback paths; JavaScript `undefined > 90` is
false), and the `error` field of the fallback
`\x7b valid: false, error: 'Check failed' \x7d`. -/
structure SslCheck where
  valid : Bool
  days_remaining : Option ℤ := none
  error : Option String := none
  deriving Repr, DecidableEq

/-- Result object of `checkDNS`, restricted to the fields read by
`computeIQScore`, plus the `error` field of the fallback
`\x7b has_records: false, error: 'Check failed' \x7d`. -/
structure DnsCheck where
  has_records : Bool
  mx_count : ℕ := 0
  has_spf : Bool := false
  has_dmarc : Bool := false
  error : Option String := none
  deriving Repr, DecidableEq

/-- Result object of `checkSafeBrowsing`: `safe`, the threat list, and
the `fallback` flag set only by the substitution
`\x7b safe: true, fallback: true \x7d`.  No safe-browsing result carries an
`error` field in the source. -/
structure SafeBrowsingCheck where
  safe : Bool
  threats : List String := []
  fallback : Bool := false
  deriving Repr, DecidableEq

/-- Result object of `checkWhois`: `registered`, the optional
`registrar` string, and the `error` field of the fallback
`\x7b registered: false, error: 'Check failed' \x7d`. -/
structure WhoisCheck where
  registered : Bool
  registrar : Option String := none
  error : Option String := none
  deriving Repr, DecidableEq

/-- Result object of `checkReputation`: the numeric `score` and the
optional `source` tag.  Neither the probe's own results nor the
substitution `\x7b score: 50 \x7d` carry an `error` or `fallback` field. -/
structure ReputationCheck where
  score : ℚ
  source : Option String := none
  deriving Repr, DecidableEq

/-- The `checks` record assembled by `scanUrl` after `Promise.allSettled`. -/
structure Checks where
  domain_age : DomainAgeCheck
  ssl : SslCheck
  dns : DnsCheck
  safe_browsing : SafeBrowsingCheck
  whois : WhoisCheck
  reputation : ReputationCheck
  deriving Repr, DecidableEq

/-- The fallback substitution of `scanUrl` (its `checks` literal): each
probe slot takes the fulfilled value when the promise fulfilled and the
probe's hard-coded fallback object when it rejected. -/
def settleChecks (ageR : Settled DomainAgeCheck) (sslR : Settled SslCheck)
    (dnsR : Settled DnsCheck) (sbR : Settled SafeBrowsingCheck)
    (whoisR : Settled WhoisCheck) (repR : Settled ReputationCheck) : Checks :=
  { domain_age :=
      match ageR with
      | .fulfilled v => v
      | .rejected => { age_days := 0, error := some "Check failed" }
    ssl :=
      match sslR with
      | .fulfilled v => v
      | .rejected => { valid := false, error := some "Check failed" }
    dns :=
      match dnsR with
      | .fulfilled v => v
      | .rejected => { has_records := false, error := some "Check failed" }
    safe_browsing :=
      match sbR with
      | .fulfilled v => v
      | .rejected => { safe := true, fallback := true }
    whois :=
      match whoisR with
      | .fulfilled v => v
      | .rejected => { registered := false, error := some "Check failed" }
    reputation :=
      match repR with
      | .fulfilled v => v
      | .rejected => { score := 50 } }

/-- Weight of the domain-age probe (`const ageWeight = 25`). -/
def ageWeight : ℚ := 25
/-- Weight of the SSL probe (`const sslWeight = 15`). -/
def sslWeight : ℚ := 15
/-- Weight of the safe-browsing probe (`const sbWeight = 30`). -/
def sbWeight : ℚ := 30
/-- Weight of the DNS probe (`const dnsWeight = 10`). -/
def dnsWeight : ℚ := 10
/-- Weight of the WHOIS probe (`const whoisWeight = 10`). -/
def whoisWeight : ℚ := 10
/-- Weight of the reputation probe (`const repWeight = 10`). -/
def repWeight : ℚ := 10

/-- `totalWeight` accumulated by `computeIQScore` (equals 100). -/
def totalWeight : ℚ :=
  ageWeight + sslWeight + sbWeight + dnsWeight + whoisWeight + repWeight

/-- Domain-age contribution of `computeIQScore` (the first if-chain):
strict comparisons against 730 / 365 / 180 / 30. -/
def contribAge (c : DomainAgeCheck) : ℚ :=
  if c.age_days > 730 then ageWeight
  else if c.age_days > 365 then ageWeight * 0.8
  else if c.age_days > 180 then ageWeight * 0.6
  else if c.age_days > 30 then ageWeight * 0.3
  else ageWeight * 0.1

/-- Test `checks.ssl.days_remaining > 90` under JavaScript semantics:
false when the field is absent (`undefined > 90` is false). -/
def sslBonusCond (c : SslCheck) : Bool :=
  match c.days_remaining with
  | some d => d > 90
  | none => false

/-- SSL contribution of `computeIQScore`: full weight when valid, plus a
2-point bonus when the certificate has more than 90 days remaining. -/
def contribSsl (c : SslCheck) : ℚ :=
  if c.valid then
    sslWeight + (if sslBonusCond c then 2 else 0)
  else 0

/-- Safe-browsing contribution of `computeIQScore`: full weight when
`safe` is set. -/
def contribSafeBrowsing (c : SafeBrowsingCheck) : ℚ :=
  if c.safe then sbWeight else 0

/-- DNS contribution of `computeIQScore`: half weight for having records,
plus MX / SPF / DMARC increments. -/
def contribDns (c : DnsCheck) : ℚ :=
  if c.has_records then
    dnsWeight * 0.5 +
      (if c.mx_count > 0 then dnsWeight * 0.2 else 0) +
      (if c.has_spf then dnsWeight * 0.15 else 0) +
      (if c.has_dmarc then dnsWeight * 0.15 else 0)
  else 0

/-- JavaScript truthiness test of `checks.whois.registrar` combined with
the comparison against the literal `'Unknown (no WHOIS key)'`. -/
def registrarBonusCond (c : WhoisCheck) : Bool :=
  match c.registrar with
  | some r => !(r == "") && !(r == "Unknown (no WHOIS key)")
  | none => false

/-- WHOIS contribution of `computeIQScore`: 0.6 of the weight when
registered, plus 0.4 when a real registrar name is present. -/
def contribWhois (c : WhoisCheck) : ℚ :=
  if c.registered then
    whoisWeight * 0.6 +
      (if registrarBonusCond c then whoisWeight * 0.4 else 0)
  else 0

/-- Reputation contribution of `computeIQScore`:
`(checks.reputation.score / 100) * repWeight`. -/
def contribReputation (c : ReputationCheck) : ℚ :=
  c.score / 100 * repWeight

/-- JavaScript `Math.round`: round half toward positive infinity. -/
def jsRound (x : ℚ) : ℤ := ⌊x + 1 / 2⌋

/-- `Math.max(0, Math.min(100, x))`. -/
def clamp01to100 (x : ℚ) : ℚ := max 0 (min 100 x)

/-- The `score` accumulator of `computeIQScore` after all six additions,
in source order: domain age, SSL, safe browsing, DNS, WHOIS,
reputation. -/
def totalContrib (checks : Checks) : ℚ :=
  contribAge checks.domain_age + contribSsl checks.ssl +
  contribSafeBrowsing checks.safe_browsing + contribDns checks.dns +
  contribWhois checks.whois + contribReputation checks.reputation

/-- `computeIQScore(checks, url, domain)`: sum the six contributions,
normalize by `totalWeight`, scale to 0–100, clamp, round.  The `url` and
`domain` parameters are declared by the source function but its body
never reads them. -/
def computeIQScore (checks : Checks) (url : String) (domain : String) : ℤ :=
  jsRound (clamp01to100 (totalContrib checks / totalWeight * 100))

/-- Ordered URL verdict tiers (strings 'dangerous' / 'suspicious' /
'safe' in the source). -/
inductive UrlVerdict where
  | dangerous
  | suspicious
  | safe
  deriving Repr, DecidableEq

/-- Rank of a URL verdict tier: larger is better (less risky). -/
def UrlVerdict.rank : UrlVerdict → ℕ
  | .dangerous => 0
  | .suspicious => 1
  | .safe => 2

/-- The URL verdict classifier of `scanUrl`:
`iq_score >= 75` safe, `>= 50` suspicious, else dangerous. -/
def urlVerdict (iq : ℤ) : UrlVerdict :=
  if iq ≥ 75 then .safe
  else if iq ≥ 50 then .suspicious
  else .dangerous

/-- Parsed-URL fields read by `scanUrl` (`new URL(url)` succeeded). -/
structure ParsedUrl where
  hostname : String
  protocol : String
  deriving Repr, DecidableEq

/-- Response object of `scanUrl`, without the wall-clock timing field. -/
structure ScanResult where
  iq_score : ℤ
  verdict : UrlVerdict
  error : Option String := none
  url : String
  domain : Option String := none
  checks : Option Checks := none
  deriving Repr, DecidableEq

/-- `scanUrl(url)`: on parse failure return the structural-error
envelope; otherwise substitute fallbacks for rejected probes, compute the
score and classify.  The parse result and the six settled probe outcomes
are the function's environment inputs. -/
def scanUrl (url : String) (parsed : Option ParsedUrl)
    (ageR : Settled DomainAgeCheck) (sslR : Settled SslCheck)
    (dnsR : Settled DnsCheck) (sbR : Settled SafeBrowsingCheck)
    (whoisR : Settled WhoisCheck) (repR : Settled ReputationCheck) :
    ScanResult :=
  match parsed with
  | none =>
      { iq_score := 0
        verdict := .dangerous
        error := some "Invalid URL format"
        url := url }
  | some p =>
      let domain := p.hostname
      let checks := settleChecks ageR sslR dnsR sbR whoisR repR
      let iq := computeIQScore checks url domain
      { iq_score := iq
        verdict := urlVerdict iq
        url := url
        domain := some domain
        checks := some checks }

/-- Ordered social-authenticity verdict tiers of
`calculateIntegrityScore` ('Bot/Fake' / 'Suspicious' / 'Plausible' /
'Authentic'). -/
inductive SocialVerdict where
  | botFake
  | suspicious
  | probable
  | authentic
  deriving Repr, DecidableEq

/-- Rank of a social verdict tier: larger is better. -/
def SocialVerdict.rank : SocialVerdict → ℕ
  | .botFake => 0
  | .suspicious => 1
  | .probable => 2
  | .authentic => 3

/-- The social verdict classifier of `calculateIntegrityScore`:
`score > 80` Authentic, `> 60` Plausible, `> 40` Suspicious, else
Bot/Fake (all comparisons strict). -/
def socialVerdict (score : ℤ) : SocialVerdict :=
  if score > 80 then .authentic
  else if score > 60 then .probable
  else if score > 40 then .suspicious
  else .botFake

/-- Whether a settled domain-age slot records a failure: the fallback
object carries `error: 'Check failed'`. -/
def DomainAgeCheck.failureRecorded (c : DomainAgeCheck) : Bool := c.error.isSome

/-- Whether a settled SSL slot records a failure: the fallback object
carries `error: 'Check failed'`. -/
def SslCheck.failureRecorded (c : SslCheck) : Bool := c.error.isSome

/-- Whether a settled DNS slot records a failure: the fallback object
carries `error: 'Check failed'`. -/
def DnsCheck.failureRecorded (c : DnsCheck) : Bool := c.error.isSome

/-- Whether a settled safe-browsing slot records a failure: the fallback
object carries `fallback: true` (its only failure marker). -/
def SafeBrowsingCheck.failureRecorded (c : SafeBrowsingCheck) : Bool := c.fallback

/-- Whether a settled WHOIS slot records a failure: the fallback object
carries `error: 'Check failed'`. -/
def WhoisCheck.failureRecorded (c : WhoisCheck) : Bool := c.error.isSome

/-- Whether a settled reputation slot records a failure.  The source's
reputation objects — both the probe's own results and the fallback
`\x7b score: 50 \x7d` — consist only of `score` and optionally `source`;
no field of the object marks a failure, so no reputation slot ever
records one. -/
def ReputationCheck.failureRecorded (_ : ReputationCheck) : Bool := false

/-- The [0,1] partial-credit curve of the domain-age probe, read off the
multipliers of `computeIQScore`'s first if-chain (all comparisons
strict). -/
def ageCredit (d : ℤ) : ℚ :=
  if d > 730 then 1
  else if d > 365 then 0.8
  else if d > 180 then 0.6
  else if d > 30 then 0.3
  else 0.1

/-- The source's domain-age contribution is exactly weight × credit. -/
lemma contribAge_eq_weight_mul_credit (c : DomainAgeCheck) :
    contribAge c = ageWeight * ageCredit c.age_days := by
  unfold contribAge ageCredit ageWeight
  split_ifs <;> norm_num

lemma jsRound_nonneg (x : ℚ) (h : 0 ≤ x) : 0 ≤ jsRound x := by
  unfold jsRound
  exact Int.le_floor.mpr (by push_cast; linarith)

lemma jsRound_le_100 (x : ℚ) (h : x ≤ 100) : jsRound x ≤ 100 := by
  unfold jsRound
  have h101 : ⌊x + 1 / 2⌋ < 101 := Int.floor_lt.mpr (by push_cast; linarith)
  omega

lemma clamp01to100_nonneg (x : ℚ) : 0 ≤ clamp01to100 x := le_max_left _ _

lemma clamp01to100_le (x : ℚ) : clamp01to100 x ≤ 100 :=
  max_le (by norm_num) (min_le_left _ _)

lemma clamp01to100_of_mem (x : ℚ) (h0 : 0 ≤ x) (h100 : x ≤ 100) :
    clamp01to100 x = x := by
  unfold clamp01to100
  rw [min_eq_right h100, max_eq_right h0]

lemma jsRound_eq_of_add_half (x : ℚ) (n : ℤ) (h : x + 1 / 2 = (n : ℚ)) :
    jsRound x = n := by
  unfold jsRound
  rw [h]
  exact Int.floor_intCast n

lemma computeIQScore_bounds (c : Checks) (u d : String) :
    0 ≤ computeIQScore c u d ∧ computeIQScore c u d ≤ 100 := by
  unfold computeIQScore
  exact ⟨jsRound_nonneg _ (clamp01to100_nonneg _),
         jsRound_le_100 _ (clamp01to100_le _)⟩

/-- Claim C1: for every input URL string, `scanUrl` returns an
`iq_score` that is an integer between 0 and 100 inclusive, on both the
normal scoring path (`computeIQScore` over the six probe outcomes) and
the invalid-URL short-circuit path. -/
theorem c1_iq_score_bounded (url : String) (parsed : Option ParsedUrl)
    (ageR : Settled DomainAgeCheck) (sslR : Settled SslCheck)
    (dnsR : Settled DnsCheck) (sbR : Settled SafeBrowsingCheck)
    (whoisR : Settled WhoisCheck) (repR : Settled ReputationCheck) :
    0 ≤ (scanUrl url parsed ageR sslR dnsR sbR whoisR repR).iq_score ∧
    (scanUrl url parsed ageR sslR dnsR sbR whoisR repR).iq_score ≤ 100 := by
  match parsed with
  | none => exact ⟨le_refl 0, show (0 : ℤ) ≤ 100 by norm_num⟩
  | some p =>
      exact computeIQScore_bounds
        (settleChecks ageR sslR dnsR sbR whoisR repR) url p.hostname

/-- Claim C3: for every URL string that cannot be parsed as a URL,
`scanUrl` short-circuits before scheduling any probe (its result carries
no checks record and does not depend on any probe outcome) and returns
`iq_score` 0, the worst-tier verdict 'dangerous', and the structural
error reason 'Invalid URL format'. -/
theorem c3_invalid_url_short_circuit (url : String)
    (ageR ageR' : Settled DomainAgeCheck) (sslR sslR' : Settled SslCheck)
    (dnsR dnsR' : Settled DnsCheck) (sbR sbR' : Settled SafeBrowsingCheck)
    (whoisR whoisR' : Settled WhoisCheck) (repR repR' : Settled ReputationCheck) :
    (scanUrl url none ageR sslR dnsR sbR whoisR repR).iq_score = 0 ∧
    (scanUrl url none ageR sslR dnsR sbR whoisR repR).verdict = .dangerous ∧
    (scanUrl url none ageR sslR dnsR sbR whoisR repR).error =
      some "Invalid URL format" ∧
    (scanUrl url none ageR sslR dnsR sbR whoisR repR).checks = none ∧
    scanUrl url none ageR sslR dnsR sbR whoisR repR =
      scanUrl url none ageR' sslR' dnsR' sbR' whoisR' repR' :=
  ⟨rfl, rfl, rfl, rfl, rfl⟩

/-- Claim C8: aggregation is deterministic — two calls of
`computeIQScore` on identical checks records return the same score; the
model of the source function is pure, with no hidden state, randomness
or clock input. -/
theorem c8_deterministic (c₁ c₂ : Checks) (u d : String) (h : c₁ = c₂) :
    computeIQScore c₁ u d = computeIQScore c₂ u d := by
  rw [h]

/-- Witness for C8 at a concrete checks record. -/
theorem c8_deterministic_witness :
    computeIQScore
        (settleChecks .rejected .rejected .rejected .rejected .rejected .rejected)
        "https://example.com/" "example.com" =
      computeIQScore
        (settleChecks .rejected .rejected .rejected .rejected .rejected .rejected)
        "https://example.com/" "example.com" :=
  c8_deterministic _ _ "https://example.com/" "example.com" rfl

/-- Claim C2 (amended): for every request with a parsable URL, all six
probe slots are consumed with no short-circuit — each fulfilled probe's
value appears unchanged in the checks record even when other probes
rejected — and `scanUrl` always returns a result with a defined in-range
score and matching verdict and no request-level error.  A rejection of
the domain-age, SSL, DNS or WHOIS probe is recorded in that slot's
detail by `error: 'Check failed'`, and of the safe-browsing probe by
`fallback: true`; but a rejection of the reputation probe is replaced by
the bare object `\x7b score: 50 \x7d`, which records no failure. -/
theorem c2_amended_resilient_no_short_circuit (url : String) (p : ParsedUrl)
    (ageR : Settled DomainAgeCheck) (sslR : Settled SslCheck)
    (dnsR : Settled DnsCheck) (sbR : Settled SafeBrowsingCheck)
    (whoisR : Settled WhoisCheck) (repR : Settled ReputationCheck) :
    (scanUrl url (some p) ageR sslR dnsR sbR whoisR repR).error = none ∧
    (scanUrl url (some p) ageR sslR dnsR sbR whoisR repR).checks =
      some (settleChecks ageR sslR dnsR sbR whoisR repR) ∧
    0 ≤ (scanUrl url (some p) ageR sslR dnsR sbR whoisR repR).iq_score ∧
    (scanUrl url (some p) ageR sslR dnsR sbR whoisR repR).iq_score ≤ 100 ∧
    (scanUrl url (some p) ageR sslR dnsR sbR whoisR repR).verdict =
      urlVerdict (scanUrl url (some p) ageR sslR dnsR sbR whoisR repR).iq_score ∧
    (∀ v, ageR = .fulfilled v →
      (settleChecks ageR sslR dnsR sbR whoisR repR).domain_age = v) ∧
    (∀ v, sslR = .fulfilled v →
      (settleChecks ageR sslR dnsR sbR whoisR repR).ssl = v) ∧
    (∀ v, dnsR = .fulfilled v →
      (settleChecks ageR sslR dnsR sbR whoisR repR).dns = v) ∧
    (∀ v, sbR = .fulfilled v →
      (settleChecks ageR sslR dnsR sbR whoisR repR).safe_browsing = v) ∧
    (∀ v, whoisR = .fulfilled v →
      (settleChecks ageR sslR dnsR sbR whoisR repR).whois = v) ∧
    (∀ v, repR = .fulfilled v →
      (settleChecks ageR sslR dnsR sbR whoisR repR).reputation = v) ∧
    (ageR = .rejected →
      (settleChecks ageR sslR dnsR sbR whoisR repR).domain_age.failureRecorded = true) ∧
    (sslR = .rejected →
      (settleChecks ageR sslR dnsR sbR whoisR repR).ssl.failureRecorded = true) ∧
    (dnsR = .rejected →
      (settleChecks ageR sslR dnsR sbR whoisR repR).dns.failureRecorded = true) ∧
    (sbR = .rejected →
      (settleChecks ageR sslR dnsR sbR whoisR repR).safe_browsing.failureRecorded = true) ∧
    (whoisR = .rejected →
      (settleChecks ageR sslR dnsR sbR whoisR repR).whois.failureRecorded = true) ∧
    (repR = .rejected →
      (settleChecks ageR sslR dnsR sbR whoisR repR).reputation.failureRecorded = false) := by
  refine ⟨rfl, rfl,
    (computeIQScore_bounds (settleChecks ageR sslR dnsR sbR whoisR repR) url p.hostname).1,
    (computeIQScore_bounds (settleChecks ageR sslR dnsR sbR whoisR repR) url p.hostname).2,
    rfl, ?_, ?_, ?_, ?_, ?_, ?_, ?_, ?_, ?_, ?_, ?_, ?_⟩ <;>
    first
      | (rintro v rfl; rfl)
      | (rintro rfl; rfl)

/-- Counterexample for claim C2: when the reputation probe rejects, the
per-check detail of the response substitutes the bare object
`\x7b score: 50 \x7d`, which contains no failure marker — the probe's
failure is not recorded, contrary to the claim. -/
theorem c2_counterexample_reputation_unrecorded :
    (scanUrl "https://example.com/"
        (some { hostname := "example.com", protocol := "https:" })
        (.fulfilled { age_days := 1000 })
        (.fulfilled { valid := true, days_remaining := some 100 })
        (.fulfilled { has_records := true })
        (.fulfilled { safe := true })
        (.fulfilled { registered := true, registrar := some "MarkMonitor" })
        .rejected).checks =
      some { domain_age := { age_days := 1000 }
             ssl := { valid := true, days_remaining := some 100 }
             dns := { has_records := true }
             safe_browsing := { safe := true }
             whois := { registered := true, registrar := some "MarkMonitor" }
             reputation := { score := 50 } } ∧
    ReputationCheck.failureRecorded { score := 50 } = false :=
  ⟨rfl, rfl⟩

/-- Witness for C2's amended theorem at a concrete all-rejected run. -/
theorem c2_amended_witness :
    (settleChecks .rejected .rejected .rejected .rejected .rejected
        .rejected).ssl.failureRecorded = true ∧
    (settleChecks .rejected .rejected .rejected .rejected .rejected
        .rejected).reputation.failureRecorded = false := by
  have h := c2_amended_resilient_no_short_circuit "https://example.com/"
    { hostname := "example.com", protocol := "https:" }
    .rejected .rejected .rejected .rejected .rejected .rejected
  obtain ⟨-, -, -, -, -, -, -, -, -, -, -, -, hssl, -, -, -, hrep⟩ := h
  exact ⟨hssl rfl, hrep rfl⟩

/-- Claim C10: the `url` and `domain` parameters of `computeIQScore` do
not influence its result — for any fixed checks record, two invocations
differing only in `url` and/or `domain` return the same score. -/
theorem c10_url_domain_irrelevant (c : Checks) (u₁ d₁ u₂ d₂ : String) :
    computeIQScore c u₁ d₁ = computeIQScore c u₂ d₂ := rfl

lemma totalContrib_all_rejected :
    totalContrib
      (settleChecks .rejected .rejected .rejected .rejected .rejected
        .rejected) = 75 / 2 := by
  norm_num [totalContrib, settleChecks, contribAge, contribSsl,
    contribSafeBrowsing, contribDns, contribWhois, contribReputation,
    ageWeight, sslWeight, sbWeight, dnsWeight, whoisWeight, repWeight,
    sslBonusCond, registrarBonusCond]

lemma computeIQScore_all_rejected (u d : String) :
    computeIQScore
      (settleChecks .rejected .rejected .rejected .rejected .rejected
        .rejected) u d = 38 := by
  unfold computeIQScore
  rw [totalContrib_all_rejected]
  have h1 : (75 : ℚ) / 2 / totalWeight * 100 = 75 / 2 := by
    norm_num [totalWeight, ageWeight, sslWeight, sbWeight, dnsWeight,
      whoisWeight, repWeight]
  rw [h1, clamp01to100_of_mem _ (by norm_num) (by norm_num)]
  exact jsRound_eq_of_add_half _ 38 (by norm_num)

/-- Counterexample for claim C4: when all six probes reject, `scanUrl`
returns `iq_score` 38 (from contributions 2.5 + 0 + 30 + 0 + 0 + 5 =
37.5, rounded), not the claimed neutral default of 50. -/
theorem c4_counterexample_all_fail_score :
    (scanUrl "https://example.com/"
        (some { hostname := "example.com", protocol := "https:" })
        .rejected .rejected .rejected .rejected .rejected
        .rejected).iq_score = 38 ∧ (38 : ℤ) ≠ 50 := by
  constructor
  · exact computeIQScore_all_rejected "https://example.com/" "example.com"
  · decide

/-- Claim C4 (amended): if every probe fails (all six outcomes are the
failure substitutes), `scanUrl` still returns a defined aggregate score
— 38, with verdict 'dangerous' and no request-level error — rather than
erroring.  The score is not the 50 the claim names. -/
theorem c4_amended_all_fail_defined (url : String) (p : ParsedUrl) :
    (scanUrl url (some p) .rejected .rejected .rejected .rejected .rejected
        .rejected).iq_score = 38 ∧
    (scanUrl url (some p) .rejected .rejected .rejected .rejected .rejected
        .rejected).error = none ∧
    (scanUrl url (some p) .rejected .rejected .rejected .rejected .rejected
        .rejected).verdict = .dangerous := by
  refine ⟨computeIQScore_all_rejected url p.hostname, rfl, ?_⟩
  show urlVerdict
    (computeIQScore
      (settleChecks .rejected .rejected .rejected .rejected .rejected
        .rejected) url p.hostname) = .dangerous
  rw [computeIQScore_all_rejected]
  norm_num [urlVerdict]

/-- Counterexample for claim C5: the safe-browsing probe's failure
substitute `\x7b safe: true, fallback: true \x7d` earns exactly the same
contribution (the full weight 30) as a fully successful clean
safe-browsing result — not strictly less, so unavailability is
rewarded. -/
theorem c5_counterexample_safe_browsing_fallback :
    contribSafeBrowsing { safe := true, fallback := true } =
      contribSafeBrowsing { safe := true } ∧
    ¬ contribSafeBrowsing { safe := true, fallback := true } <
        contribSafeBrowsing { safe := true } := by
  constructor
  · rfl
  · exact lt_irrefl _

/-- Claim C5 (amended): for five of the six probes — domain age, SSL,
DNS, WHOIS, reputation — the credit substituted on failure is strictly
less than the credit of a fully successful clean result; for the
safe-browsing probe the substitute `safe: true` earns the same full
credit as a clean success. -/
theorem c5_amended_fallback_credits :
    contribAge { age_days := 0, error := some "Check failed" } <
      contribAge { age_days := 1000 } ∧
    contribSsl { valid := false, error := some "Check failed" } <
      contribSsl { valid := true, days_remaining := some 100 } ∧
    contribDns { has_records := false, error := some "Check failed" } <
      contribDns { has_records := true, mx_count := 1,
                   has_spf := true, has_dmarc := true } ∧
    contribWhois { registered := false, error := some "Check failed" } <
      contribWhois { registered := true, registrar := some "MarkMonitor" } ∧
    contribReputation { score := 50 } < contribReputation { score := 100 } ∧
    contribSafeBrowsing { safe := true, fallback := true } =
      contribSafeBrowsing { safe := true } := by
  have hreg : registrarBonusCond
      { registered := true, registrar := some "MarkMonitor" } = true := rfl
  refine ⟨?_, ?_, ?_, ?_, ?_, rfl⟩ <;>
    norm_num [contribAge, contribSsl, contribDns, contribWhois,
      contribReputation, ageWeight, sslWeight, dnsWeight, whoisWeight,
      repWeight, sslBonusCond, hreg]

/-- Counterexample for claim C6: a valid SSL certificate with more than
90 days remaining contributes 17, strictly more than the probe's table
weight 15, and the pre-normalization sum on a fully clean record is 102,
exceeding the weight sum 100. -/
theorem c6_counterexample_ssl_exceeds_weight :
    sslWeight < contribSsl { valid := true, days_remaining := some 100 } ∧
    totalWeight <
      contribAge { age_days := 1000 } +
      contribSsl { valid := true, days_remaining := some 100 } +
      contribSafeBrowsing { safe := true } +
      contribDns { has_records := true, mx_count := 1,
                   has_spf := true, has_dmarc := true } +
      contribWhois { registered := true, registrar := some "MarkMonitor" } +
      contribReputation { score := 100 } := by
  have hreg : registrarBonusCond
      { registered := true, registrar := some "MarkMonitor" } = true := rfl
  constructor <;>
    norm_num [contribAge, contribSsl, contribSafeBrowsing, contribDns,
      contribWhois, contribReputation, ageWeight, sslWeight, sbWeight,
      dnsWeight, whoisWeight, repWeight, totalWeight, sslBonusCond, hreg]

/-- Claim C6 (amended): with the reputation signal in its documented
[0,100] range, five of the six probes contribute at most their table
weight; the SSL probe can exceed its weight by the 2-point long-lived
certificate bonus, so it contributes at most weight + 2 and the
pre-normalization sum is at most totalWeight + 2 = 102. -/
theorem c6_amended_contribution_bounds (c : Checks)
    (h₀ : 0 ≤ c.reputation.score) (h₁ : c.reputation.score ≤ 100) :
    contribAge c.domain_age ≤ ageWeight ∧
    contribSsl c.ssl ≤ sslWeight + 2 ∧
    contribSafeBrowsing c.safe_browsing ≤ sbWeight ∧
    contribDns c.dns ≤ dnsWeight ∧
    contribWhois c.whois ≤ whoisWeight ∧
    contribReputation c.reputation ≤ repWeight ∧
    contribAge c.domain_age + contribSsl c.ssl +
      contribSafeBrowsing c.safe_browsing + contribDns c.dns +
      contribWhois c.whois + contribReputation c.reputation ≤
      totalWeight + 2 := by
  have hage : contribAge c.domain_age ≤ ageWeight := by
    unfold contribAge ageWeight; split_ifs <;> norm_num
  have hssl : contribSsl c.ssl ≤ sslWeight + 2 := by
    unfold contribSsl sslWeight; split_ifs <;> norm_num
  have hsb : contribSafeBrowsing c.safe_browsing ≤ sbWeight := by
    unfold contribSafeBrowsing sbWeight; split_ifs <;> norm_num
  have hdns : contribDns c.dns ≤ dnsWeight := by
    unfold contribDns dnsWeight; split_ifs <;> norm_num
  have hwhois : contribWhois c.whois ≤ whoisWeight := by
    unfold contribWhois whoisWeight; split_ifs <;> norm_num
  have hrep : contribReputation c.reputation ≤ repWeight := by
    unfold contribReputation repWeight; linarith
  refine ⟨hage, hssl, hsb, hdns, hwhois, hrep, ?_⟩
  unfold totalWeight; linarith

/-- Witness for C6's amended theorem at the all-rejected checks record
(reputation score 50). -/
theorem c6_amended_witness :
    contribAge (settleChecks .rejected .rejected .rejected .rejected
        .rejected .rejected).domain_age ≤ ageWeight :=
  (c6_amended_contribution_bounds
    (settleChecks .rejected .rejected .rejected .rejected .rejected .rejected)
    (by decide) (by decide)).1

/-- Counterexample for claim C7: a domain age of exactly 730 days earns
credit 0.8 (contribution 25 × 0.8 = 20), not the higher tier's 1.0 the
claim assigns to ages ≥ 730 — the source's breakpoints are strict. -/
theorem c7_counterexample_exact_730 :
    contribAge { age_days := 730 } = ageWeight * 0.8 ∧
    ageCredit 730 = 0.8 ∧ ageCredit 730 ≠ 1 := by
  refine ⟨rfl, rfl, ?_⟩
  norm_num [ageCredit]

/-- Claim C7 (amended): the domain-age credit mapping is monotonic with
strict breakpoints — age > 730 days earns 1.0, > 365 earns 0.8, > 180
earns 0.6, > 30 earns 0.3, else 0.1 — so an age of exactly 730, 365,
180, or 30 days receives the lower tier's credit; and the source's
contribution is exactly weight × credit. -/
theorem c7_amended_age_breakpoints (d : ℤ) :
    (730 < d → ageCredit d = 1) ∧
    (365 < d → d ≤ 730 → ageCredit d = 0.8) ∧
    (180 < d → d ≤ 365 → ageCredit d = 0.6) ∧
    (30 < d → d ≤ 180 → ageCredit d = 0.3) ∧
    (d ≤ 30 → ageCredit d = 0.1) ∧
    (∀ e : ℤ, d ≤ e → ageCredit d ≤ ageCredit e) ∧
    contribAge { age_days := d } = ageWeight * ageCredit d := by
  refine ⟨?_, ?_, ?_, ?_, ?_, ?_, contribAge_eq_weight_mul_credit _⟩
  · intro h; unfold ageCredit; split_ifs <;> first | rfl | omega
  · intro h h'; unfold ageCredit; split_ifs <;> first | rfl | omega
  · intro h h'; unfold ageCredit; split_ifs <;> first | rfl | omega
  · intro h h'; unfold ageCredit; split_ifs <;> first | rfl | omega
  · intro h; unfold ageCredit; split_ifs <;> first | rfl | omega
  · intro e he; unfold ageCredit; split_ifs <;> first | omega | norm_num

/-- Witness for C7's amended theorem at a concrete age. -/
theorem c7_amended_witness : ageCredit 1000 = 1 :=
  (c7_amended_age_breakpoints 1000).1 (by norm_num)

/-- Counterexample for claim C9: at the URL classifier's 75 threshold
the tie resolves to the higher tier — `urlVerdict 75 = safe`, though
'suspicious' is the lower (more cautious) tier the claim requires at a
tie. -/
theorem c9_counterexample_url_tie :
    urlVerdict 75 = UrlVerdict.safe ∧
    UrlVerdict.suspicious.rank < UrlVerdict.safe.rank := by
  constructor <;> decide

/-- Claim C9 (amended): verdict classification is monotone for both
kinds — score_a ≥ score_b implies the verdict of score_a is not a worse
tier — with fixed numeric thresholds; but ties resolve differently per
kind: the URL classifier's `>=` comparisons give a score equal to a
threshold the higher tier (75 → safe, 50 → suspicious), while the social
classifier's strict `>` comparisons give it the lower, more cautious
tier (80 → Plausible, 60 → Suspicious, 40 → Bot/Fake). -/
theorem c9_amended_classifier_monotone (a b : ℤ) (h : b ≤ a) :
    (urlVerdict b).rank ≤ (urlVerdict a).rank ∧
    (socialVerdict b).rank ≤ (socialVerdict a).rank ∧
    urlVerdict 75 = .safe ∧ urlVerdict 50 = .suspicious ∧
    socialVerdict 80 = .probable ∧ socialVerdict 60 = .suspicious ∧
    socialVerdict 40 = .botFake := by
  refine ⟨?_, ?_, by decide, by decide, by decide, by decide, by decide⟩
  · unfold urlVerdict
    split_ifs <;> first | decide | omega
  · unfold socialVerdict
    split_ifs <;> first | decide | omega

/-- Witness for C9's amended theorem at concrete scores 50 ≤ 75. -/
theorem c9_amended_witness : (urlVerdict 50).rank ≤ (urlVerdict 75).rank :=
  (c9_amended_classifier_monotone 75 50 (by norm_num)).1

end VerifyIQ
